import Mathlib

/-!
Verification of the chisel client (`client/client.go`) connection lifecycle:
URL/endpoint resolution, remote-spec processing, server-key verification,
handshake outcome classification, the reconnection/backoff loop, and the
Start/Wait/Close lifecycle.  Go values are embedded shallowly: durations are
`Int` nanoseconds, Go `error` values are records carrying the message and the
`net.Error` capability, pointer-typed struct fields that start as Go zero
values are `Option`s, and fallible functions return `Except`.
-/

namespace Chisel

/-- A Go `error` value as the client inspects it: the message text, whether a
type assertion to `net.Error` succeeds, and the result of `Temporary()` when
it does (`temporary` is meaningless when `isNet = false`). -/
structure GoErr where
  msg : String
  isNet : Bool := false
  temporary : Bool := false
  deriving Repr, DecidableEq

/-- Does `pat` occur as a contiguous sublist of `s`? -/
def listContains (s pat : List Char) : Bool :=
  match s with
  | [] => pat.isEmpty
  | _ :: rest => pat.isPrefixOf s || listContains rest pat

/-- Go `strings.Contains s substr` on the underlying characters. -/
def goContains (s substr : String) : Bool :=
  listContains s.data substr.data

/-- Go `strings.HasPrefix s pre`. -/
def goHasPrefix (s pre : String) : Bool :=
  pre.data.isPrefixOf s.data

/-- `verifyServer` (client.go:149-158): the SSH host-key callback.  The key is
represented by its computed fingerprint string `got` (`ccrypto.FingerprintKey`
output); `expect` is `config.Fingerprint`.  Fails with
`Invalid fingerprint (<got>)` when a non-empty expected fingerprint is not a
prefix of the computed one. -/
def verifyServer (expect got : String) : Except GoErr Unit :=
  if expect ≠ "" ∧ ¬ goHasPrefix got expect then
    .error ⟨"Invalid fingerprint (" ++ got ++ ")", false, false⟩
  else
    .ok ()

/-- The environment of a single `connectionOnce` call: the results the outside
world (context, proxy setup, websocket dial, SSH library, tunnel) hands to
each step.  `none` for an error field means that step succeeds.
`configReply` is the payload `SendRequest` returns (Go `configerr`), given as
the text of its bytes; `bindErr` is what `tunnel.BindSSH` returns;
`cancelDuringSleep` is consumed by the loop, not by `connectionOnce`: it says
whether `ctx.Done()` fires before the backoff sleep completes. -/
structure AttemptEnv where
  ctxDone : Bool := false
  proxyErr : Option GoErr := none
  dialErr : Option GoErr := none
  sshErr : Option GoErr := none
  sendErr : Option GoErr := none
  configReply : String := ""
  bindErr : Option GoErr := none
  cancelDuringSleep : Bool := false
  deriving Repr, DecidableEq

/-- The `io.EOF` sentinel returned when the context is already done. -/
def ioEOF : GoErr := ⟨"EOF", false, false⟩

/-- `connectionOnce` (client.go:226-295) as a function of the attempt's
environment, returning the Go triple `(connected, retry, err)`.
`hasProxy` is `c.proxyURL != nil`; the proxy-setup branch only runs then. -/
def connectionOnce (hasProxy : Bool) (env : AttemptEnv) :
    Bool × Bool × Option GoErr :=
  if env.ctxDone then
    (false, false, some ioEOF)
  else if hasProxy ∧ env.proxyErr.isSome then
    (false, false, env.proxyErr)
  else
    match env.dialErr with
    | some e => (false, true, some e)
    | none =>
      match env.sshErr with
      | some e =>
        -- SSH handshake failure classification (client.go:255-268)
        if goContains e.msg "unable to authenticate" then
          (false, false, some e)
        else if e.isNet ∧ ¬ e.temporary then
          (false, false, some e)
        else
          (false, true, some e)
      | none =>
        match env.sendErr with
        | some e => (false, false, some e)
        | none =>
          if env.configReply.length > 0 then
            (false, false, some ⟨env.configReply, false, false⟩)
          else
            -- connected: hand over to BindSSH and block (client.go:288-294)
            match env.bindErr with
            | some e => (true, ¬ (e.isNet ∧ ¬ e.temporary), some e)
            | none => (true, true, none)

/-! ## Configuration and endpoint resolution (client.go:31-42, 59-91) -/

/-- `Config` (client.go:31-42).  Durations (`KeepAlive`, `MaxRetryInterval`)
are `Int` nanoseconds like Go's `time.Duration`; `Headers` is the header
key/value multimap; the nilable `DialContext` function pointer is kept only
as presence. -/
structure Config where
  Fingerprint : String := ""
  Auth : String := ""
  KeepAlive : Int := 0
  MaxRetryCount : Int := 0
  MaxRetryInterval : Int := 0
  Server : String := ""
  Proxy : String := ""
  Remotes : List String := []
  Headers : List (String × List String) := []
  DialContext : Option Unit := none
  deriving Repr, DecidableEq

/-- One nanosecond-denominated second (`time.Second`). -/
def second : Int := 1000000000

/-- `time.Minute`. -/
def minute : Int := 60 * second

/-- The in-place normalisation `NewClient` performs on the caller's `Config`
through the pointer (client.go:61-66): prepend `http://` when the server
string does not start with `http`, and raise a sub-second
`MaxRetryInterval` to 5 minutes. -/
def normalizeConfig (c : Config) : Config :=
  let c := if ¬ goHasPrefix c.Server "http" then
    { c with Server := "http://" ++ c.Server } else c
  if c.MaxRetryInterval < second then
    { c with MaxRetryInterval := 5 * minute } else c

/-- The parts of a parsed `net/url.URL` the client reads and writes. -/
structure URL where
  scheme : String
  host : String
  path : String
  deriving Repr, DecidableEq

/-- Split `l` at the first occurrence of `sep`, returning the parts before
and after it; `none` when `sep` does not occur. -/
def splitFirst (sep : List Char) : List Char → Option (List Char × List Char)
  | [] => if sep.isEmpty then some ([], []) else none
  | c :: cs =>
    if sep.isPrefixOf (c :: cs) then some ([], (c :: cs).drop sep.length)
    else match splitFirst sep cs with
      | some (l, r) => some (c :: l, r)
      | none => none

/-- Model of `net/url.Parse` restricted to the shape the client feeds it:
`scheme://host[/path]` with no userinfo or query.  The scheme is everything
before the first `://`, the host everything after it up to the first `/`.
Strings without `://` are rejected (Go would parse them as opaque/path-only
URLs, a shape `NewClient` never produces once the `http` prefix is applied). -/
def parseURL (s : String) : Option URL :=
  match splitFirst [':', '/', '/'] s.data with
  | none => none
  | some (sch, rest) =>
    some ⟨⟨sch⟩, ⟨rest.takeWhile (· ≠ '/')⟩, ⟨rest.dropWhile (· ≠ '/')⟩⟩

/-- The regexp check `:\d+$` (client.go:72): does the host end in a colon
followed by one or more digits? -/
def hasPortSuffix (host : String) : Bool :=
  let r := host.data.reverse
  let ds := r.takeWhile Char.isDigit
  ¬ ds.isEmpty ∧ (r.drop ds.length).headD ' ' = ':'

/-- The default-port rule (client.go:71-78): a host with no explicit port
gets `:443` under an encrypted scheme (`https`/`wss`), `:80` otherwise. -/
def defaultPort (scheme host : String) : String :=
  if ¬ hasPortSuffix host then
    if scheme = "https" ∨ scheme = "wss" then host ++ ":443"
    else host ++ ":80"
  else host

/-- Go `strings.Replace s old new 1` on characters: replace the first
occurrence of `old` (assumed non-empty). -/
def replaceFirstList (pat rep : List Char) : List Char → List Char
  | [] => []
  | c :: cs =>
    if pat.isPrefixOf (c :: cs) then rep ++ (c :: cs).drop pat.length
    else c :: replaceFirstList pat rep cs

/-- `strings.Replace old new 1` on strings. -/
def replaceFirst (s pat rep : String) : String :=
  ⟨replaceFirstList pat.data rep.data s.data⟩

/-- Endpoint resolution in `NewClient` (client.go:61-80): apply the default
scheme, parse, apply the default port, and swap the scheme family from
`http` to `ws`. -/
def resolveEndpoint (server : String) : Option URL :=
  let server := if ¬ goHasPrefix server "http" then "http://" ++ server
    else server
  match parseURL server with
  | none => none
  | some u =>
    let u := { u with host := defaultPort u.scheme u.host }
    some { u with scheme := replaceFirst u.scheme "http" "ws" }

/-! ## Remote-spec processing (client.go:92-110) -/

/-- The flags of a decoded remote (`settings.Remote`) that `NewClient`
inspects. -/
structure Remote where
  Socks : Bool := false
  Reverse : Bool := false
  Stdio : Bool := false
  deriving Repr, DecidableEq

/-- The remote-decoding loop of `NewClient` (client.go:92-110), parameterised
by the decoder `settings.DecodeRemote` (whose source is outside this
package).  State mirrors the Go locals: the capability flags and the
accumulated `client.computed.Remotes`.  Returns the decoded remotes together
with `(hasReverse, hasSocks, hasStdio)`, or the construction error. -/
def processRemotes (decode : String → Except String Remote) :
    List String → Bool → Bool → Bool → List Remote →
    Except String (List Remote × Bool × Bool × Bool)
  | [], hasReverse, hasSocks, hasStdio, acc =>
    .ok (acc, hasReverse, hasSocks, hasStdio)
  | s :: rest, hasReverse, hasSocks, hasStdio, acc =>
    match decode s with
    | .error e => .error ("Failed to decode remote '" ++ s ++ "': " ++ e)
    | .ok r =>
      let hasSocks := hasSocks || r.Socks
      let hasReverse := hasReverse || r.Reverse
      if r.Stdio && hasStdio then .error "Only one stdio is allowed"
      else
        processRemotes decode rest hasReverse hasSocks (hasStdio || r.Stdio)
          (acc ++ [r])

/-- How many specs in `l` decode successfully to a stdio-flagged remote. -/
def countStdio (decode : String → Except String Remote) (l : List String) :
    Nat :=
  l.countP fun s => match decode s with
    | .ok r => r.Stdio
    | .error _ => false

/-! ## The client value and its lifecycle (client.go:44-56, 161-181, 328-339) -/

/-- The fields of `Client` (client.go:45-56) that the verified behaviour
reads.  `stop` and `eg` are the nilable pointers assigned only by `Start`
(client.go:163,165): `none` is Go's nil zero value.  `eg` carries the value
the errgroup's `Wait` will deliver; `cancelled` is the state of the
cancellation scope `stop` triggers. -/
structure Client where
  config : Config
  server : String
  remotes : List Remote
  hasReverse : Bool
  hasSocks : Bool
  hasStdio : Bool
  proxyURL : Option URL
  stop : Option Unit
  eg : Option (Option GoErr)
  cancelled : Bool
  deriving Repr, DecidableEq

/-- `u.String()` for the URL shapes the client builds. -/
def urlString (u : URL) : String := u.scheme ++ "://" ++ u.host ++ u.path

/-- `NewClient` (client.go:59-137), parameterised by the remote decoder.
Returns the Go pair (client or error) together with the caller's `Config`
as it stands after the call — `NewClient` receives a pointer and mutates
`Server` and `MaxRetryInterval` in place before anything can fail. -/
def NewClient (decode : String → Except String Remote) (c : Config) :
    Except String Client × Config :=
  let c := normalizeConfig c
  match resolveEndpoint c.Server with
  | none => (.error "invalid server URL", c)
  | some u =>
    match processRemotes decode c.Remotes false false false [] with
    | .error e => (.error e, c)
    | .ok (rs, hasReverse, hasSocks, hasStdio) =>
      let proxyRes : Except String (Option URL) :=
        if c.Proxy = "" then .ok none
        else match parseURL c.Proxy with
          | none => .error "Invalid proxy URL"
          | some p => .ok (some p)
      match proxyRes with
      | .error e => (.error e, c)
      | .ok pu =>
        (.ok { config := c, server := urlString u, remotes := rs,
               hasReverse := hasReverse, hasSocks := hasSocks,
               hasStdio := hasStdio, proxyURL := pu,
               stop := none, eg := none, cancelled := false }, c)

/-- The result of a Go call that may hit a nil-pointer dereference. -/
inductive GoResult (α : Type) where
  | ok (a : α)
  | nilPanic
  deriving Repr, DecidableEq

/-- `Start` (client.go:161-181): assigns the cancel function and the
errgroup pointer.  The goroutines' eventual joint result (what
`eg.Wait()` will return) is supplied as `egResult`. -/
def Client.start (c : Client) (egResult : Option GoErr) : Client :=
  { c with stop := some (), eg := some egResult }

/-- `Wait` (client.go:329-331): `return c.eg.Wait()` with no nil guard —
calling it while `eg` is still the zero value dereferences nil. -/
def Client.wait (c : Client) : GoResult (Option GoErr) :=
  match c.eg with
  | none => .nilPanic
  | some r => .ok r

/-- `Close` (client.go:334-339): call the cancel function only when it was
assigned, then `return nil`. -/
def Client.close (c : Client) : Client × Option GoErr :=
  match c.stop with
  | some _ => ({ c with cancelled := true }, none)
  | none => (c, none)

/-! ## Backoff and the reconnection loop (client.go:183-223) -/

/-- `backoff.Backoff.ForAttempt` from `github.com/jpillora/backoff` at the
settings the loop uses (client.go:185): `Min`, `Factor`, `Jitter` left at
their defaults (100ms, 2, off), `Max := MaxRetryInterval`.  Durations are
`Int` nanoseconds; the attempt counter is exact here, so the library's
float arithmetic computes these same integer values. -/
def forAttempt (mx : Int) (a : Nat) : Int :=
  let mn : Int := 100000000
  let mx := if mx ≤ 0 then 10 * second else mx
  if mn ≥ mx then mx
  else min (mn * 2 ^ a) mx

/-- What one run of `connectionLoop` did, as observed from outside:
how many `connectionOnce` attempts ran, the backoff delays computed for the
sleeps (in order), whether the loop called `c.Close()` on exit, and the
loop's return value — `some r` when the loop returned `r`, `none` when the
supplied environment list ran out while the loop would have kept going
(a model artifact, not a program behaviour). -/
structure LoopTrace where
  attempts : Nat
  delays : List Int
  closed : Bool
  ret : Option (Option GoErr)
  deriving Repr, DecidableEq

/-- `connectionLoop` (client.go:183-223) over a list of per-iteration
environments.  `a` is the backoff attempt counter (`b.attempt`): reset when
an attempt connected (client.go:189-191), read for the give-up check
(client.go:193,208), incremented by `b.Duration()` (client.go:211).
Breaking out of the loop calls `c.Close()` and returns nil; cancellation
during the sleep returns nil without the `Close`. -/
def connectionLoop (maxAttempt : Int) (mx : Int) (hasProxy : Bool) :
    Nat → List AttemptEnv → LoopTrace
  | _, [] => ⟨0, [], false, none⟩
  | a, env :: rest =>
    let out := connectionOnce hasProxy env
    let a := if out.1 then 0 else a
    if ¬ out.2.1 ∨ (0 ≤ maxAttempt ∧ maxAttempt ≤ (a : Int)) then
      ⟨1, [], true, some none⟩
    else
      let d := forAttempt mx a
      if env.cancelDuringSleep then
        ⟨1, [d], false, some none⟩
      else
        let t := connectionLoop maxAttempt mx hasProxy (a + 1) rest
        ⟨t.attempts + 1, d :: t.delays, t.closed, t.ret⟩

/-- The concrete client `NewClient` builds for server `example.com` with no
remotes and no proxy: note the nil (`none`) `stop` and `eg` fields. -/
def exampleClient : Client where
  config :=
    { Fingerprint := ""
      Auth := ""
      KeepAlive := 0
      MaxRetryCount := 0
      MaxRetryInterval := 300000000000
      Server := "http://example.com"
      Proxy := ""
      Remotes := []
      Headers := []
      DialContext := none }
  server := "ws://example.com:80"
  remotes := []
  hasReverse := false
  hasSocks := false
  hasStdio := false
  proxyURL := none
  stop := none
  eg := none
  cancelled := false

/-! ## Theorems -/

/-- Occurring as an explicit middle segment makes `listContains` true. -/
theorem listContains_append_self (pat : List Char) :
    ∀ pre post, listContains (pre ++ (pat ++ post)) pat = true := by
  intro pre
  induction pre with
  | nil =>
    intro post
    match h : pat ++ post with
    | [] =>
      have : pat = [] := by
        cases pat with
        | nil => rfl
        | cons a l => simp at h
      simp [this, listContains]
    | c :: cs =>
      rw [listContains, ← h]
      have : pat.isPrefixOf (pat ++ post) = true := by
        rw [List.isPrefixOf_iff_prefix]
        exact List.prefix_append pat post
      simp [this]
  | cons c pre ih =>
    intro post
    rw [List.cons_append, listContains]
    simp [ih post]

/-- C1: For every SSH handshake failure (the dial succeeded, the SSH
handshake returned error `e`, client.go:254-268) the attempt reports
not-connected with the outcome carrying `e`, and it is non-retriable exactly
when `e` is an authentication rejection (message contains
`unable to authenticate`) or a `net.Error` whose `Temporary()` is false;
every other handshake error is retriable. -/
theorem handshake_failure_classified (hasProxy : Bool) (env : AttemptEnv)
    (e : GoErr) (hc : env.ctxDone = false) (hp : env.proxyErr = none)
    (hd : env.dialErr = none) (hs : env.sshErr = some e) :
    (connectionOnce hasProxy env).1 = false ∧
    (connectionOnce hasProxy env).2.2 = some e ∧
    ((connectionOnce hasProxy env).2.1 = false ↔
      (goContains e.msg "unable to authenticate" = true ∨
       (e.isNet = true ∧ e.temporary = false))) := by
  rcases e with ⟨msg, isNet, temporary⟩
  by_cases ha : goContains msg "unable to authenticate" = true <;>
    cases isNet <;> cases temporary <;>
      simp [connectionOnce, hc, hp, hd, hs, ha]

/-- Witness for C1 at concrete inputs: an authentication rejection is
non-retriable, a non-temporary network error is non-retriable, and a plain
handshake error is retriable. -/
theorem handshake_failure_classified_witness :
    (connectionOnce false
      { sshErr := some ⟨"ssh: unable to authenticate, attempted methods [none password]", false, false⟩ } ).2.1 = false ∧
    (connectionOnce false
      { sshErr := some ⟨"broken pipe", true, false⟩ } ).2.1 = false ∧
    (connectionOnce false
      { sshErr := some ⟨"ssh: handshake failed", false, false⟩ } ).2.1 = true := by
  refine ⟨?_, ?_, ?_⟩
  · exact (handshake_failure_classified false
      { sshErr := some ⟨"ssh: unable to authenticate, attempted methods [none password]", false, false⟩ }
      ⟨"ssh: unable to authenticate, attempted methods [none password]", false, false⟩
      rfl rfl rfl rfl).2.2.mpr (Or.inl (by decide))
  · exact (handshake_failure_classified false
      { sshErr := some ⟨"broken pipe", true, false⟩ } ⟨"broken pipe", true, false⟩
      rfl rfl rfl rfl).2.2.mpr (Or.inr ⟨rfl, rfl⟩)
  · have h := (handshake_failure_classified false
      { sshErr := some ⟨"ssh: handshake failed", false, false⟩ }
      ⟨"ssh: handshake failed", false, false⟩ rfl rfl rfl rfl).2.2
    by_contra hr
    simp only [Bool.not_eq_true] at hr
    rcases h.mp hr with h1 | h1
    · exact absurd h1 (by decide)
    · exact absurd h1.1 (by decide)

/-- C6: the host-key verification accepts exactly when no fingerprint is
configured or the computed fingerprint starts with the configured one; on a
mismatch it fails with `Invalid fingerprint (<computed>)`, a message
containing the computed fingerprint (client.go:149-158). -/
theorem verifyServer_classified (expect got : String) :
    (verifyServer expect got = .ok () ↔
      (expect = "" ∨ goHasPrefix got expect = true)) ∧
    (expect ≠ "" → goHasPrefix got expect = false →
      verifyServer expect got =
        .error ⟨"Invalid fingerprint (" ++ got ++ ")", false, false⟩ ∧
      goContains ("Invalid fingerprint (" ++ got ++ ")") got = true) := by
  constructor
  · constructor
    · intro h
      by_contra hcon
      push_neg at hcon
      simp [verifyServer, hcon.1, hcon.2] at h
    · intro h
      rcases h with h | h
      · simp [verifyServer, h]
      · simp [verifyServer, h]
  · intro h1 h2
    refine ⟨by simp [verifyServer, h1, h2], ?_⟩
    have := listContains_append_self got.data "Invalid fingerprint (".data ")".data
    simpa [goContains, String.data_append] using this

/-- Witness for C6 at the spec's scenario: configured fingerprint `ab:cd`
accepts `ab:cd:ef:00` and rejects `zz:zz` with a message containing
`zz:zz`. -/
theorem verifyServer_classified_witness :
    verifyServer "ab:cd" "ab:cd:ef:00" = .ok () ∧
    verifyServer "ab:cd" "zz:zz" =
      .error ⟨"Invalid fingerprint (zz:zz)", false, false⟩ ∧
    goContains "Invalid fingerprint (zz:zz)" "zz:zz" = true := by
  refine ⟨(verifyServer_classified "ab:cd" "ab:cd:ef:00").1.mpr
    (Or.inr (by decide)), ?_, ?_⟩
  · have h := ((verifyServer_classified "ab:cd" "zz:zz").2
      (by decide) (by decide)).1
    exact h
  · have h := ((verifyServer_classified "ab:cd" "zz:zz").2
      (by decide) (by decide)).2
    exact h

/-- C7: after a successful secure handshake, a transport failure while
sending the `config` control request makes the attempt not-connected and
not-retriable with that error, and a non-empty rejection payload makes it
not-connected and not-retriable with an error whose message is exactly the
payload text (client.go:272-285). -/
theorem negotiation_failure_fatal (hasProxy : Bool) (env : AttemptEnv)
    (hc : env.ctxDone = false) (hp : env.proxyErr = none)
    (hd : env.dialErr = none) (hs : env.sshErr = none) :
    (∀ e, env.sendErr = some e →
      connectionOnce hasProxy env = (false, false, some e)) ∧
    (env.sendErr = none → 0 < env.configReply.length →
      connectionOnce hasProxy env =
        (false, false, some ⟨env.configReply, false, false⟩)) := by
  constructor
  · intro e he
    simp [connectionOnce, hc, hp, hd, hs, he]
  · intro he hr
    simp [connectionOnce, hc, hp, hd, hs, he, hr]

/-- Witness for C7 at concrete inputs: a failed `SendRequest` and a
rejection payload `server: unsupported remote` are both fatal for the
attempt, the latter with the payload as the error message. -/
theorem negotiation_failure_fatal_witness :
    connectionOnce false { sendErr := some ⟨"EOF", false, false⟩ } =
      (false, false, some ⟨"EOF", false, false⟩) ∧
    connectionOnce false { configReply := "server: unsupported remote" } =
      (false, false, some ⟨"server: unsupported remote", false, false⟩) := by
  constructor
  · exact (negotiation_failure_fatal false
      { sendErr := some ⟨"EOF", false, false⟩ } rfl rfl rfl rfl).1
      ⟨"EOF", false, false⟩ rfl
  · exact (negotiation_failure_fatal false
      { configReply := "server: unsupported remote" } rfl rfl rfl rfl).2 rfl
      (by decide)

/-- C2: with `MaxRetryCount = 0`, a first attempt whose dial fails (a
retriable, never-connected outcome) makes the loop run exactly that one
attempt, compute no backoff delay (no sleep, no retry), close the client and
return nil, whatever environments would have followed
(client.go:183-223). -/
theorem zero_retry_single_attempt (mx : Int) (hasProxy : Bool)
    (env : AttemptEnv) (rest : List AttemptEnv) (e : GoErr)
    (hc : env.ctxDone = false) (hp : env.proxyErr = none)
    (hd : env.dialErr = some e) :
    connectionLoop 0 mx hasProxy 0 (env :: rest) =
      ⟨1, [], true, some none⟩ := by
  simp [connectionLoop, connectionOnce, hc, hp, hd]

/-- Witness for C2: a concrete refused dial under `MaxRetryCount = 0`. -/
theorem zero_retry_single_attempt_witness :
    connectionLoop 0 (5 * minute) false 0
      [{ dialErr := some ⟨"dial tcp 127.0.0.1:8080: connect: connection refused", true, false⟩ },
       {}] = ⟨1, [], true, some none⟩ :=
  zero_retry_single_attempt (5 * minute) false
    { dialErr := some ⟨"dial tcp 127.0.0.1:8080: connect: connection refused", true, false⟩ }
    [{}] ⟨"dial tcp 127.0.0.1:8080: connect: connection refused", true, false⟩
    rfl rfl rfl

/-- C3: whatever the backoff counter `a` accumulated from earlier
consecutive failures, an attempt that reports connected (and whose
termination is retriable, with the loop not exhausted) resets the counter
before the next delay is computed: that delay is `forAttempt mx 0`, the very
delay a first failing attempt of a fresh loop computes
(client.go:185-211). -/
theorem backoff_reset_on_connected (maxAttempt mx : Int) (hasProxy : Bool)
    (a : Nat) (env : AttemptEnv) (rest : List AttemptEnv)
    (hconn : (connectionOnce hasProxy env).1 = true)
    (hretry : (connectionOnce hasProxy env).2.1 = true)
    (hmax : maxAttempt ≠ 0) :
    (connectionLoop maxAttempt mx hasProxy a (env :: rest)).delays.head? =
      some (forAttempt mx 0) ∧
    ∀ (env' : AttemptEnv) (rest' : List AttemptEnv),
      (connectionOnce hasProxy env').1 = false →
      (connectionOnce hasProxy env').2.1 = true →
      (connectionLoop maxAttempt mx hasProxy 0 (env' :: rest')).delays.head? =
        some (forAttempt mx 0) := by
  have hstop : ¬ (0 ≤ maxAttempt ∧ maxAttempt ≤ (0 : Int)) := by
    intro h
    exact hmax (by omega)
  constructor
  · rw [connectionLoop]
    by_cases hcs : env.cancelDuringSleep = true <;>
      simp [hconn, hretry, hstop, hcs]
  · intro env' rest' hconn' hretry'
    rw [connectionLoop]
    by_cases hcs : env'.cancelDuringSleep = true <;>
      simp [hconn', hretry', hstop, hcs]

/-- Witness for C3: after seven straight failures (counter 7), a connected
attempt that later disconnects retriably is followed by the first-attempt
delay (100ms), the same delay a fresh loop computes after its first failed
dial. -/
theorem backoff_reset_on_connected_witness :
    (connectionLoop (-1) (5 * minute) false 7
      [{ bindErr := some ⟨"websocket: close 1006", false, false⟩ }]).delays.head? =
      some (forAttempt (5 * minute) 0) ∧
    (connectionLoop (-1) (5 * minute) false 0
      [{ dialErr := some ⟨"connection refused", true, false⟩ }]).delays.head? =
      some (forAttempt (5 * minute) 0) := by
  have h := backoff_reset_on_connected (-1) (5 * minute) false 7
    { bindErr := some ⟨"websocket: close 1006", false, false⟩ } []
    (by decide) (by decide) (by decide)
  exact ⟨h.1, h.2 { dialErr := some ⟨"connection refused", true, false⟩ } []
    (by decide) (by decide)⟩

/-- A client produced by `NewClient` still has its `stop` and `eg` pointer
fields at their Go zero value (nil): `NewClient` never assigns them, only
`Start` does. -/
theorem NewClient_zero_lifecycle (decode : String → Except String Remote)
    (c : Config) (cl : Client) (h : (NewClient decode c).1 = .ok cl) :
    cl.stop = none ∧ cl.eg = none := by
  unfold NewClient at h
  simp only at h
  repeat' split at h
  all_goals simp_all
  all_goals (cases h; exact ⟨rfl, rfl⟩)

/-- C8: `Close` is idempotent and safe out of order (client.go:334-339).
On a freshly constructed client (`Start` never called) the `stop` field is
nil so `Close` is a guarded no-op returning nil; on any client state,
`Close` returns nil, and calling it again returns nil and changes nothing
further.  Never blocking or panicking is reflected by `Client.close` being
a total function that dereferences no nil field. -/
theorem close_idempotent :
    (∀ (decode : String → Except String Remote) (c : Config) (cl : Client),
      (NewClient decode c).1 = .ok cl → Client.close cl = (cl, none)) ∧
    (∀ cl : Client,
      (Client.close cl).2 = none ∧
      (Client.close (Client.close cl).1).2 = none ∧
      (Client.close (Client.close cl).1).1 = (Client.close cl).1) := by
  constructor
  · intro decode c cl h
    have hz := (NewClient_zero_lifecycle decode c cl h).1
    simp [Client.close, hz]
  · intro cl
    rcases hs : cl.stop with _ | u <;> simp [Client.close, hs]

/-- Witness for C8: the concrete freshly built client for `example.com`;
closing it before `Start` is a no-op returning nil, and closing twice
returns nil both times. -/
theorem close_idempotent_witness :
    (NewClient (fun _ => .ok {}) { Server := "example.com" } ).1 =
      .ok exampleClient ∧
    Client.close exampleClient = (exampleClient, none) ∧
    (Client.close exampleClient).2 = none ∧
    (Client.close (Client.close exampleClient).1).2 = none := by
  have h1 : (NewClient (fun _ => .ok {}) { Server := "example.com" } ).1 =
      .ok exampleClient := by rfl
  exact ⟨h1, close_idempotent.1 (fun _ => .ok {}) _ exampleClient h1,
    (close_idempotent.2 exampleClient).1,
    (close_idempotent.2 exampleClient).2.1⟩

/-- C10: `Wait` (client.go:329-331) calls `c.eg.Wait()` with no nil guard,
and `eg` is assigned only inside `Start` (client.go:165).  On any client as
built by `NewClient`, before `Start` was ever called, `Wait` dereferences
nil and panics, while `Close` on the same client is guarded by its nil
check and returns nil; once `Start` has run, `Wait` returns the errgroup's
result. -/
theorem wait_before_start_panics :
    (∀ (decode : String → Except String Remote) (c : Config) (cl : Client),
      (NewClient decode c).1 = .ok cl →
      Client.wait cl = .nilPanic ∧ Client.close cl = (cl, none)) ∧
    (∀ (cl : Client) (r : Option GoErr),
      Client.wait (Client.start cl r) = .ok r) := by
  constructor
  · intro decode c cl h
    obtain ⟨hstop, heg⟩ := NewClient_zero_lifecycle decode c cl h
    exact ⟨by simp [Client.wait, heg], by simp [Client.close, hstop]⟩
  · intro cl r
    simp [Client.wait, Client.start]

/-- Witness for C10: the concrete client built from server `example.com`
panics in `Wait` before `Start` but closes cleanly, and after `Start` its
`Wait` returns the group's result. -/
theorem wait_before_start_panics_witness :
    Client.wait exampleClient = .nilPanic ∧
    Client.close exampleClient = (exampleClient, none) ∧
    Client.wait (Client.start exampleClient none) = .ok none := by
  have h1 : (NewClient (fun _ => .ok {}) { Server := "example.com" } ).1 =
      .ok exampleClient := by rfl
  exact ⟨(wait_before_start_panics.1 (fun _ => .ok {}) _ exampleClient h1).1,
    (wait_before_start_panics.1 (fun _ => .ok {}) _ exampleClient h1).2,
    wait_before_start_panics.2 exampleClient none⟩

/-- On every path, `NewClient` hands back the caller's config with the
in-place normalisation applied. -/
theorem NewClient_snd (decode : String → Except String Remote) (c : Config) :
    (NewClient decode c).2 = normalizeConfig c := by
  unfold NewClient
  simp only
  repeat' split
  all_goals rfl

/-- `normalizeConfig` as a record update: only `Server` and
`MaxRetryInterval` change. -/
theorem normalizeConfig_eq (c : Config) :
    normalizeConfig c = { c with
      Server := if ¬ goHasPrefix c.Server "http" then "http://" ++ c.Server
        else c.Server,
      MaxRetryInterval := if c.MaxRetryInterval < second then 5 * minute
        else c.MaxRetryInterval } := by
  unfold normalizeConfig
  by_cases h1 : goHasPrefix c.Server "http" = true <;>
    by_cases h2 : c.MaxRetryInterval < second <;>
      simp [h1, h2]

/-- `normalizeConfig` leaves the remote-spec list unchanged. -/
theorem normalizeConfig_Remotes (c : Config) :
    (normalizeConfig c).Remotes = c.Remotes := by
  rw [normalizeConfig_eq]

/-- C9 counterexample: `NewClient` does not leave the caller's `Config`
unchanged.  For the concrete config with `Server = "example.com"` (and all
other fields at their zero values), the config the caller holds after the
call differs from the one passed in: `Server` was rewritten to
`http://example.com` and `MaxRetryInterval` to 5 minutes
(client.go:61-66 mutate through the `*Config` pointer). -/
theorem config_mutation_counterexample :
    (NewClient (fun _ => .ok {}) { Server := "example.com" } ).2 ≠
      ({ Server := "example.com" } : Config) := by
  decide

/-- C9 amended: `NewClient` mutates exactly two fields of the caller's
`Config`, before any validation can fail: `Server` becomes
`"http://" ++ Server` when it does not start with `http`, and
`MaxRetryInterval` becomes 5 minutes when below one second; every other
field is unchanged, and this normalised config is what the caller holds
after `NewClient` returns, on every path. -/
theorem config_normalized_in_place (decode : String → Except String Remote)
    (c : Config) :
    (NewClient decode c).2 = normalizeConfig c ∧
    normalizeConfig c = { c with
      Server := if ¬ goHasPrefix c.Server "http" then "http://" ++ c.Server
        else c.Server,
      MaxRetryInterval := if c.MaxRetryInterval < second then 5 * minute
        else c.MaxRetryInterval } :=
  ⟨NewClient_snd decode c, normalizeConfig_eq c⟩

/-- Parsing `http://` ++ s splits off scheme `http`; the host is everything
up to the first slash. -/
theorem parseURL_http (s : String) :
    parseURL ("http://" ++ s) =
      some ⟨"http", ⟨s.data.takeWhile (· ≠ '/')⟩,
            ⟨s.data.dropWhile (· ≠ '/')⟩⟩ := by
  simp +decide [parseURL, splitFirst, List.isPrefixOf_cons₂, String.data_append]

/-- Appending `:80` always satisfies the `:\d+$` port check. -/
theorem hasPortSuffix_append80 (h : String) :
    hasPortSuffix (h ++ ":80") = true := by
  rcases h with ⟨l⟩
  show hasPortSuffix ⟨l ++ [':', '8', '0']⟩ = true
  simp +decide [hasPortSuffix, List.takeWhile_cons]

/-- Under the plain `http` scheme, the default-port rule always leaves an
explicit port on the host. -/
theorem hasPortSuffix_defaultPort_http (host : String) :
    hasPortSuffix (defaultPort "http" host) = true := by
  by_cases hp : hasPortSuffix host = true
  · simp [defaultPort, hp]
  · simp only [Bool.not_eq_true] at hp
    simp +decide [defaultPort, hp, hasPortSuffix_append80]

/-- A server string with no `http` scheme resolves to the plain `ws` scheme
with the default-port rule applied to its host part. -/
theorem resolveEndpoint_no_http (s : String)
    (h : goHasPrefix s "http" = false) :
    resolveEndpoint s = some ⟨"ws",
      defaultPort "http" ⟨s.data.takeWhile (· ≠ '/')⟩,
      ⟨s.data.dropWhile (· ≠ '/')⟩⟩ := by
  simp only [resolveEndpoint, h, Bool.false_eq_true, not_false_eq_true,
    ite_true]
  rw [parseURL_http]
  simp only [Option.some.injEq]
  constructor

/-- C4: every server string that does not begin with an `http` scheme
resolves to an endpoint with the plain web-socket scheme `ws` and a host
carrying an explicit port; `example.com` in particular resolves to
`ws://example.com:80`, and the encrypted schemes `https`/`wss` receive
`:443` when no port is present (client.go:59-91). -/
theorem endpoint_resolution :
    (∀ s : String, goHasPrefix s "http" = false →
      ∃ u, resolveEndpoint s = some u ∧ u.scheme = "ws" ∧
        hasPortSuffix u.host = true) ∧
    resolveEndpoint "example.com" = some ⟨"ws", "example.com:80", ""⟩ ∧
    (∀ hst : String, hasPortSuffix hst = false →
      defaultPort "https" hst = hst ++ ":443" ∧
      defaultPort "wss" hst = hst ++ ":443") := by
  refine ⟨?_, by decide, ?_⟩
  · intro s h
    exact ⟨⟨"ws", defaultPort "http" ⟨s.data.takeWhile (· ≠ '/')⟩,
      ⟨s.data.dropWhile (· ≠ '/')⟩⟩, resolveEndpoint_no_http s h, rfl,
      hasPortSuffix_defaultPort_http _⟩
  · intro hst h
    constructor <;> simp +decide [defaultPort, h]

/-- Witness for C4 at concrete servers: `example.com` resolves to
`ws://example.com:80`; a server with an explicit port keeps it under `ws`;
an `https` host with no port gets `:443`. -/
theorem endpoint_resolution_witness :
    resolveEndpoint "example.com" = some ⟨"ws", "example.com:80", ""⟩ ∧
    (∃ u, resolveEndpoint "tunnel.example.org:9000" = some u ∧
      u.scheme = "ws" ∧ hasPortSuffix u.host = true) ∧
    defaultPort "https" "secure.example.com" = "secure.example.com" ++ ":443" :=
  ⟨endpoint_resolution.2.1,
   endpoint_resolution.1 "tunnel.example.org:9000" (by decide),
   (endpoint_resolution.2.2 "secure.example.com" (by decide)).1⟩

/-- If some spec in the list fails to decode, the remote-processing loop
cannot return ok, from any intermediate state. -/
theorem processRemotes_isOk_decode (decode : String → Except String Remote) :
    ∀ (l : List String) (hR hS hSt : Bool) (acc : List Remote),
      (∃ s ∈ l, ∃ m, decode s = .error m) →
      (processRemotes decode l hR hS hSt acc).isOk = false := by
  intro l
  induction l with
  | nil =>
    intro hR hS hSt acc h
    rcases h with ⟨s, hs, _⟩
    simp at hs
  | cons x rest ih =>
    intro hR hS hSt acc h
    rw [processRemotes]
    rcases hx : decode x with m | r
    · rfl
    · simp only
      by_cases hstd : (r.Stdio && hSt) = true
      · simp only [hstd, if_pos, ite_true]
        rfl
      · simp only [Bool.not_eq_true] at hstd
        simp only [hstd, Bool.false_eq_true, if_false, ite_false]
        apply ih
        rcases h with ⟨s, hs, m, hm⟩
        rcases List.mem_cons.mp hs with rfl | hs2
        · rw [hx] at hm
          exact absurd hm (by simp)
        · exact ⟨s, hs2, m, hm⟩

/-- If the list still holds more stdio-flagged specs than the current state
admits (two from a fresh state, one once a stdio remote was already seen),
the loop cannot return ok. -/
theorem processRemotes_isOk_stdio (decode : String → Except String Remote) :
    ∀ (l : List String) (hR hS hSt : Bool) (acc : List Remote),
      (if hSt then 1 else 2) ≤ countStdio decode l →
      (processRemotes decode l hR hS hSt acc).isOk = false := by
  intro l
  induction l with
  | nil =>
    intro hR hS hSt acc h
    simp [countStdio] at h
    cases hSt <;> simp_all
  | cons x rest ih =>
    intro hR hS hSt acc h
    rw [processRemotes]
    rcases hx : decode x with m | r
    · rfl
    · simp only
      have hc : countStdio decode (x :: rest) =
          countStdio decode rest + (if r.Stdio = true then 1 else 0) := by
        simp [countStdio, List.countP_cons, hx]
      by_cases hstd : (r.Stdio && hSt) = true
      · simp only [hstd, if_pos, ite_true]
        rfl
      · simp only [Bool.not_eq_true] at hstd
        simp only [hstd, Bool.false_eq_true, if_false, ite_false]
        apply ih
        rw [hc] at h
        cases hh : hSt <;> cases hr : r.Stdio <;> simp_all

/-- When every spec before `s` decodes and the prefix cannot trip the
duplicate-stdio check, the loop fails at `s` with the decode-failure message
naming `s`. -/
theorem processRemotes_first_bad (decode : String → Except String Remote) :
    ∀ (pre : List String) (s : String) (rest : List String) (m : String)
      (hR hS hSt : Bool) (acc : List Remote),
      (∀ x ∈ pre, (decode x).isOk = true) →
      countStdio decode pre + (if hSt then 1 else 0) ≤ 1 →
      decode s = .error m →
      processRemotes decode (pre ++ s :: rest) hR hS hSt acc =
        .error ("Failed to decode remote '" ++ s ++ "': " ++ m) := by
  intro pre
  induction pre with
  | nil =>
    intro s rest m hR hS hSt acc _ _ hs
    rw [List.nil_append, processRemotes, hs]
  | cons x pre ih =>
    intro s rest m hR hS hSt acc hok hcnt hs
    rw [List.cons_append, processRemotes]
    rcases hx : decode x with m2 | r
    · have hx2 := hok x (List.mem_cons_self x pre)
      rw [hx] at hx2
      exact Bool.noConfusion hx2
    · simp only
      have hc : countStdio decode (x :: pre) =
          countStdio decode pre + (if r.Stdio = true then 1 else 0) := by
        simp [countStdio, List.countP_cons, hx]
      rw [hc] at hcnt
      by_cases hstd : (r.Stdio && hSt) = true
      · exfalso
        rcases Bool.and_eq_true_iff.mp hstd with ⟨h1, h2⟩
        rw [h1, h2] at hcnt
        simp at hcnt
      · simp only [Bool.not_eq_true] at hstd
        simp only [hstd, Bool.false_eq_true, if_false, ite_false]
        apply ih
        · intro y hy
          exact hok y (List.mem_cons_of_mem x hy)
        · cases hh : hSt <;> cases hr : r.Stdio <;> simp_all
        · exact hs

/-- C5: `NewClient` construction fails — no client value is produced — when
any remote spec fails to decode, and when two or more specs decode to
stdio-flagged remotes; when the server URL itself resolved, the first
decode failure (with a prefix that decodes fine and holds at most one stdio
remote) surfaces as `Failed to decode remote '<spec>': <err>`
(client.go:92-110). -/
theorem remotes_validation :
    (∀ (decode : String → Except String Remote) (c : Config),
      (∃ s ∈ c.Remotes, ∃ m, decode s = .error m) →
      ((NewClient decode c).1).isOk = false) ∧
    (∀ (decode : String → Except String Remote) (c : Config),
      2 ≤ countStdio decode c.Remotes →
      ((NewClient decode c).1).isOk = false) ∧
    (∀ (decode : String → Except String Remote) (c : Config) (u : URL)
       (pre : List String) (s : String) (rest : List String) (m : String),
      resolveEndpoint (normalizeConfig c).Server = some u →
      c.Remotes = pre ++ s :: rest →
      (∀ x ∈ pre, (decode x).isOk = true) →
      countStdio decode pre ≤ 1 →
      decode s = .error m →
      (NewClient decode c).1 =
        .error ("Failed to decode remote '" ++ s ++ "': " ++ m)) := by
  refine ⟨?_, ?_, ?_⟩
  · intro decode c h
    have hbad := processRemotes_isOk_decode decode (normalizeConfig c).Remotes
      false false false [] (by rw [normalizeConfig_Remotes]; exact h)
    unfold NewClient
    simp only
    rcases hu : resolveEndpoint (normalizeConfig c).Server with _ | u
    · rfl
    · rcases hr : processRemotes decode (normalizeConfig c).Remotes
        false false false [] with e | ok
      · rfl
      · rw [hr] at hbad
        exact Bool.noConfusion hbad
  · intro decode c h
    have hbad := processRemotes_isOk_stdio decode (normalizeConfig c).Remotes
      false false false [] (by rw [normalizeConfig_Remotes]; simpa using h)
    unfold NewClient
    simp only
    rcases hu : resolveEndpoint (normalizeConfig c).Server with _ | u
    · rfl
    · rcases hr : processRemotes decode (normalizeConfig c).Remotes
        false false false [] with e | ok
      · rfl
      · rw [hr] at hbad
        exact Bool.noConfusion hbad
  · intro decode c u pre s rest m hu hrem hok hcnt hs
    have heq := processRemotes_first_bad decode pre s rest m false false false
      [] hok (by simpa using hcnt) hs
    unfold NewClient
    simp only
    rw [hu, normalizeConfig_Remotes, hrem, heq]

/-- Witness for C5 at concrete inputs: a list with a failing spec aborts
construction, a list with two stdio remotes aborts construction, and the
error of the first failing spec names that spec and the decoder's
message. -/
theorem remotes_validation_witness :
    ((NewClient (fun s => if s = "bad" then .error "missing ports" else .ok {})
      { Server := "example.com", Remotes := ["5000", "bad"] } ).1).isOk
        = false ∧
    ((NewClient (fun _ => .ok { Stdio := true })
      { Server := "example.com", Remotes := ["R:2222:22", "R:3333:22"] } ).1).isOk
        = false ∧
    (NewClient (fun s => if s = "bad" then .error "oops" else .ok {})
      { Server := "example.com", Remotes := ["good", "bad"] } ).1 =
      .error ("Failed to decode remote '" ++ "bad" ++ "': " ++ "oops") := by
  refine ⟨?_, ?_, ?_⟩
  · exact remotes_validation.1 _ _ ⟨"bad", by simp, "missing ports", by rfl⟩
  · exact remotes_validation.2.1 _ _ (by decide)
  · exact remotes_validation.2.2 _ _ ⟨"ws", "example.com:80", ""⟩ ["good"]
      "bad" [] "oops" (by decide) rfl (by decide) (by decide) (by rfl)

end Chisel
